import Mathlib

/-!
Verification of the client-side conversation-session reconciliation engine
of the Team_Agents repository (frontend/app/discover/page.tsx).

The TypeScript component is embedded shallowly: React state updates become
explicit state passing on a `UiState` record, asynchronous backend calls
become explicit outcome parameters (`GetResult`, `CreateResult`,
`SendOutcome`), and the untyped JSON payloads the client copies verbatim
(but never inspects) are modelled by the opaque scalar type `Jv`.
TypeScript `as` type assertions are compile-time only and are erased in
the runtime semantics embedded here.
-/

/-- Opaque model of an untyped JSON payload value (`any` in the source).
The verified client code only copies these values, never inspects them,
so an opaque type with decidable equality is a faithful model. -/
inductive Jv where
  | null : Jv
  | str (s : String) : Jv
  | num (n : Int) : Jv
  | bool (b : Bool) : Jv
deriving DecidableEq, Repr

/-- The `Message` interface (page.tsx lines 19-30): one conversation turn.
`role` is `String` because the source's union type is a static annotation
with no runtime check. -/
structure Message where
  role : String
  content : String
  type : Option String := none
  policies : Option (List Jv) := none
  extracted : Option Jv := none
  «example» : Option String := none
  citation : Option String := none
  policy_name : Option String := none
  found : Option Bool := none
deriving DecidableEq, Repr

/-- The `metadata` JSONB object attached to a stored chat record.  JSONB is
open, so fields beyond the schema comment's `{type, policies,
extracted_requirements}` (such as explanation fields) may be present;
each field is optional, mirroring `m.metadata?.field` access. -/
structure Metadata where
  type : Option String := none
  policies : Option (List Jv) := none
  extracted_requirements : Option Jv := none
  «example» : Option String := none
  citation : Option String := none
  policy_name : Option String := none
  found : Option Bool := none
deriving DecidableEq, Repr

/-- One raw stored record as returned by the get-session operation
(`data.messages` entries); `metadata` itself may be absent. -/
structure RawRecord where
  role : String
  content : String
  metadata : Option Metadata := none
deriving DecidableEq, Repr

/-- The mapping applied to one stored record in `initSession` (lines
95-101) and `switchSession` (lines 140-146):
`{ role: m.role, content: m.content, type: m.metadata?.type,
   policies: m.metadata?.policies,
   extracted: m.metadata?.extracted_requirements }`.
The explanation fields of `Message` are never assigned, hence `none`. -/
def reconstructOne (m : RawRecord) : Message :=
  { role := m.role
    content := m.content
    type := m.metadata.bind Metadata.type
    policies := m.metadata.bind Metadata.policies
    extracted := m.metadata.bind Metadata.extracted_requirements
    «example» := none
    citation := none
    policy_name := none
    found := none }

/-- `data.messages.map (...)`: reconstruction of the restored transcript. -/
def reconstruct (records : List RawRecord) : List Message :=
  records.map reconstructOne

/-- Spec-side reconstruction, written from the spec's words in §4.2
("Fails loudly (an explicit error) only if a record has a role outside
{user, assistant}"), for comparison with the source-level `reconstruct`,
which has no error path. -/
def reconstructSpec (records : List RawRecord) : Except String (List Message) :=
  records.mapM fun m =>
    if m.role = "user" ∨ m.role = "assistant" then Except.ok (reconstructOne m)
    else Except.error ("invalid role: " ++ m.role)

/-- One Selection Set entry (`selected` state, line 62). -/
structure SelEntry where
  id : String
  name : String
deriving DecidableEq, Repr

/-- The default greeting message (page.tsx lines 46-51). -/
def GREETING : Message :=
  { role := "assistant"
    content := "Hi! I'm your AI health insurance advisor. Tell me about your health needs, budget, and family size — I'll find and rank the best policies for you.\n\nFor example: \"I need maternity coverage, have diabetes, budget ₹18k/year, family of 3\""
    type := some "question" }

/-- The component state of `DiscoverPage`: the React `useState` slots that
the reconciliation logic reads and writes, plus the one durable
localStorage slot (`policyai_session_id`, modelled as `storedSessionId`). -/
structure UiState where
  messages : List Message
  input : String
  loading : Bool
  sessionId : Option String
  sessionLoading : Bool
  showHistory : Bool
  sessionPolicyIds : List String
  selected : List SelEntry
  compareResult : Option Jv
  storedSessionId : Option String
deriving DecidableEq, Repr

/-- The initial mount state (useState initialisers, lines 54-64), with a
given content of the durable slot. -/
def initialState (stored : Option String) : UiState :=
  { messages := [GREETING]
    input := ""
    loading := false
    sessionId := none
    sessionLoading := true
    showHistory := false
    sessionPolicyIds := []
    selected := []
    compareResult := none
    storedSessionId := stored }

/-- Outcome of the asynchronous `getChatSession` call: success with the
returned record list (`data?.messages`, absent modelled as `[]`), or a
thrown error (404 / expired / network). -/
inductive GetResult where
  | ok (records : List RawRecord) : GetResult
  | err : GetResult
deriving DecidableEq, Repr

/-- Outcome of the asynchronous `createChatSession` call. -/
inductive CreateResult where
  | ok (session_id : String) : CreateResult
  | err : CreateResult
deriving DecidableEq, Repr

/-- `initSession` (page.tsx lines 85-123): on mount, restore the stored
session if its fetch succeeds, otherwise clear the durable slot and
create a fresh session; if creation also fails, stay stateless.  The
transient `setSessionLoading(true)` is not observable in this sequential
model; the final state has `sessionLoading := false` on every path. -/
def initSession (get : GetResult) (create : CreateResult) (s : UiState) : UiState :=
  match s.storedSessionId with
  | some stored =>
    match get with
    | GetResult.ok records =>
        let s1 := if records.length > 0 then { s with messages := reconstruct records } else s
        { s1 with sessionId := some stored, sessionLoading := false }
    | GetResult.err =>
        let s1 := { s with storedSessionId := none }
        match create with
        | CreateResult.ok nid =>
            { s1 with storedSessionId := some nid, sessionId := some nid,
                      sessionLoading := false }
        | CreateResult.err => { s1 with sessionLoading := false }
  | none =>
    match create with
    | CreateResult.ok nid =>
        { s with storedSessionId := some nid, sessionId := some nid,
                 sessionLoading := false }
    | CreateResult.err => { s with sessionLoading := false }

/-- `switchSession` (page.tsx lines 134-158): fetch the target history and
replace the transcript wholesale; on fetch failure nothing beyond the
initial `setShowHistory(false); setLoading(false)` happens. -/
def switchSession (sid : String) (res : GetResult) (s : UiState) : UiState :=
  let s0 := { s with showHistory := false, loading := false }
  match res with
  | GetResult.ok records =>
      let s1 :=
        if records.length > 0 then { s0 with messages := reconstruct records }
        else { s0 with messages := [GREETING] }
      { s1 with sessionId := some sid, storedSessionId := some sid,
                selected := [], compareResult := none }
  | GetResult.err => s0

/-- `startNewSession` (page.tsx lines 160-172): create a session and reset
local state; on creation failure, only the transcript is reset to the
greeting (the catch block runs `setMessages([GREETING])` alone). -/
def startNewSession (res : CreateResult) (s : UiState) : UiState :=
  let s0 := { s with showHistory := false }
  match res with
  | CreateResult.ok sid =>
      { s0 with storedSessionId := some sid, sessionId := some sid,
                messages := [GREETING], selected := [], compareResult := none }
  | CreateResult.err => { s0 with messages := [GREETING] }

/-- Shape of a successful send response, shared by the persistent
(`sendChatMessage`) and stateless (`discoverChat`) operations. -/
structure SendResponse where
  message : Option String := none
  type : Option String := none
  policies : Option (List Jv) := none
  extracted_requirements : Option Jv := none
  «example» : Option String := none
  citation : Option String := none
  policy_name : Option String := none
  found : Option Bool := none
  uploaded_policy_ids : Option (List String) := none
deriving DecidableEq, Repr

/-- Outcome of the backend call issued by `sendMessage`. -/
inductive SendOutcome where
  | ok (data : SendResponse) : SendOutcome
  | err : SendOutcome
deriving DecidableEq, Repr

/-- The backend call a `sendMessage` invocation issues: the persistent
path, the stateless path with its full `(role, content)` transcript and
accumulated policy ids, or no call at all (guard rejected). -/
inductive ApiCall where
  | persistent (sessionId content : String) : ApiCall
  | stateless (messages : List (String × String)) (sessionPolicyIds : List String) : ApiCall
  | noCall : ApiCall
deriving DecidableEq, Repr

/-- The user message appended before dispatch (line 191). -/
def userMessage (content : String) : Message :=
  { role := "user", content := content }

/-- The fixed fallback assistant message appended in the catch block
(lines 229-236). -/
def fallbackMessage : Message :=
  { role := "assistant"
    content := "Sorry, something went wrong. Please try again."
    type := some "question" }

/-- JS `String.prototype.trim` (the `.trim()` call on the user's text,
line 188): strip leading and trailing whitespace.  Defined structurally
over the character list so concrete instances compute. -/
def jsTrim (s : String) : String :=
  String.mk (((s.data.dropWhile Char.isWhitespace).reverse.dropWhile
    Char.isWhitespace).reverse)

/-- Normalisation of a successful response into the appended assistant
message (lines 214-227). -/
def normalizeResponse (data : SendResponse) : Message :=
  { role := "assistant"
    content := data.message.getD ""
    type := data.type
    policies := data.policies
    extracted := data.extracted_requirements
    «example» := data.«example»
    citation := data.citation
    policy_name := data.policy_name
    found := data.found }

/-- `sendMessage` (page.tsx lines 187-240).  `text` is the optional
argument (`text ?? input` otherwise); `outcome` is the result of the one
backend call the invocation issues.  Returns the new state together with
the call that was issued (`noCall` when the `!userText || loading` guard
returns early, in which case the state is untouched).  The truthy check
`data.uploaded_policy_ids?.length` becomes the `isEmpty` test. -/
def sendMessage (text : Option String) (outcome : SendOutcome) (s : UiState) :
    UiState × ApiCall :=
  let userText := jsTrim (text.getD s.input)
  if userText = "" ∨ s.loading = true then (s, ApiCall.noCall)
  else
    let userMsg := userMessage userText
    let s1 := { s with input := "", messages := s.messages ++ [userMsg], loading := true }
    let call :=
      match s.sessionId with
      | some sid => ApiCall.persistent sid userText
      | none =>
          ApiCall.stateless ((s.messages ++ [userMsg]).map fun m => (m.role, m.content))
            s.sessionPolicyIds
    match outcome with
    | SendOutcome.ok data =>
        let s2 :=
          match data.uploaded_policy_ids with
          | some ids => if ids.isEmpty then s1 else { s1 with sessionPolicyIds := ids }
          | none => s1
        ({ s2 with messages := s2.messages ++ [normalizeResponse data], loading := false },
         call)
    | SendOutcome.err =>
        ({ s1 with messages := s1.messages ++ [fallbackMessage], loading := false }, call)

/-- The updater passed to `setSelected` in `toggleCompare` (lines
243-248): remove a present id, add when below capacity 3, otherwise
leave unchanged. -/
def toggleUpdater (id name : String) (prev : List SelEntry) : List SelEntry :=
  match prev.find? (fun p => p.id == id) with
  | some _ => prev.filter fun p => p.id != id
  | none => if prev.length ≥ 3 then prev else prev ++ [{ id := id, name := name }]

/-- `toggleCompare` (page.tsx lines 242-250): apply the selection updater
and unconditionally discard any pending comparison result. -/
def toggleCompare (id name : String) (s : UiState) : UiState :=
  { s with selected := toggleUpdater id name s.selected, compareResult := none }

/-- A whole sequence of `toggleCompare` selection updates starting from
the initial empty Selection Set. -/
def applyToggles (ops : List (String × String)) : List SelEntry :=
  ops.foldl (fun acc op => toggleUpdater op.1 op.2 acc) []

theorem toggleUpdater_inv (id name : String) (prev : List SelEntry)
    (hlen : prev.length ≤ 3) (hnd : (prev.map SelEntry.id).Nodup) :
    (toggleUpdater id name prev).length ≤ 3 ∧
      ((toggleUpdater id name prev).map SelEntry.id).Nodup := by
  unfold toggleUpdater
  cases hf : prev.find? (fun p => p.id == id) with
  | some p =>
      refine ⟨le_trans (List.length_filter_le _ _) hlen, ?_⟩
      exact List.Nodup.sublist (List.Sublist.map _ (List.filter_sublist prev)) hnd
  | none =>
      by_cases h3 : prev.length ≥ 3
      · simp only [if_pos h3]
        exact ⟨hlen, hnd⟩
      · simp only [if_neg h3]
        constructor
        · simp only [List.length_append, List.length_singleton]
          omega
        · have hid : id ∉ prev.map SelEntry.id := by
            intro hmem
            obtain ⟨p, hp, hpid⟩ := List.mem_map.mp hmem
            have hnone := List.find?_eq_none.mp hf p hp
            simp [hpid] at hnone
          simp [List.nodup_append, hnd, hid]

theorem applyToggles_bounded_aux (ops : List (String × String)) :
    ∀ acc : List SelEntry, acc.length ≤ 3 → (acc.map SelEntry.id).Nodup →
      ((ops.foldl (fun a op => toggleUpdater op.1 op.2 a) acc).length ≤ 3 ∧
        ((ops.foldl (fun a op => toggleUpdater op.1 op.2 a) acc).map SelEntry.id).Nodup) := by
  induction ops with
  | nil => exact fun acc h1 h2 => ⟨h1, h2⟩
  | cons op rest ih =>
      intro acc h1 h2
      have h := toggleUpdater_inv op.1 op.2 acc h1 h2
      simpa using ih _ h.1 h.2

/-- C8: for every toggle on the Selection Set, a present id is removed
regardless of size, an absent id is added when the size is below 3, and
an absent id at size 3 leaves the set unchanged; consequently any
sequence of toggles from the empty set never exceeds 3 members and never
holds duplicate ids. -/
theorem toggleUpdater_bounded_set (id name : String) (prev : List SelEntry) :
    ((∃ p ∈ prev, p.id = id) →
        toggleUpdater id name prev = prev.filter fun p => p.id != id) ∧
    ((∀ p ∈ prev, p.id ≠ id) → prev.length < 3 →
        toggleUpdater id name prev = prev ++ [{ id := id, name := name }]) ∧
    ((∀ p ∈ prev, p.id ≠ id) → prev.length = 3 →
        toggleUpdater id name prev = prev) ∧
    ∀ ops : List (String × String),
      (applyToggles ops).length ≤ 3 ∧ ((applyToggles ops).map SelEntry.id).Nodup := by
  refine ⟨?_, ?_, ?_, ?_⟩
  · rintro ⟨p, hp, hpid⟩
    unfold toggleUpdater
    cases hf : prev.find? (fun q => q.id == id) with
    | some q => rfl
    | none =>
        exfalso
        have hnone := List.find?_eq_none.mp hf p hp
        simp [hpid] at hnone
  · intro habs hlt
    unfold toggleUpdater
    cases hf : prev.find? (fun q => q.id == id) with
    | some q =>
        exfalso
        have hq := List.find?_some hf
        have hqm := List.mem_of_find?_eq_some hf
        exact habs q hqm (by simpa using hq)
    | none => simp [Nat.not_le.mpr hlt]
  · intro habs heq
    unfold toggleUpdater
    cases hf : prev.find? (fun q => q.id == id) with
    | some q =>
        exfalso
        have hq := List.find?_some hf
        have hqm := List.mem_of_find?_eq_some hf
        exact habs q hqm (by simpa using hq)
    | none => simp [heq]
  · intro ops
    exact applyToggles_bounded_aux ops [] (by simp) (by simp)

theorem toggleUpdater_bounded_set_witness :
    toggleUpdater "a" "x" [{ id := "a", name := "A" }] =
      List.filter (fun p => p.id != "a") [{ id := "a", name := "A" }] ∧
    toggleUpdater "b" "B" [{ id := "a", name := "A" }] =
      [{ id := "a", name := "A" }] ++ [{ id := "b", name := "B" }] ∧
    toggleUpdater "d" "D"
        [{ id := "a", name := "A" }, { id := "b", name := "B" },
         { id := "c", name := "C" }] =
      [{ id := "a", name := "A" }, { id := "b", name := "B" },
       { id := "c", name := "C" }] ∧
    (applyToggles [("a", "A"), ("b", "B"), ("c", "C"), ("d", "D")]).length ≤ 3 :=
  ⟨(toggleUpdater_bounded_set "a" "x" _).1 ⟨{ id := "a", name := "A" }, by simp, rfl⟩,
   (toggleUpdater_bounded_set "b" "B" _).2.1 (by decide) (by decide),
   (toggleUpdater_bounded_set "d" "D" _).2.2.1 (by decide) (by decide),
   ((toggleUpdater_bounded_set "x" "X" []).2.2.2 _).1⟩

/-- C10: every invocation of toggleCompare — adding, removing, or rejected
at capacity — resets the pending comparison result to empty. -/
theorem toggleCompare_resets_compareResult (id name : String) (s : UiState) :
    (toggleCompare id name s).compareResult = none := rfl

/-- C9: while a send is in flight (the loading flag is set), a second
sendMessage call returns with the state unchanged — no user message is
appended — and issues no backend call. -/
theorem sendMessage_inflight_guard (text : Option String) (outcome : SendOutcome)
    (s : UiState) (h : s.loading = true) :
    sendMessage text outcome s = (s, ApiCall.noCall) := by
  unfold sendMessage
  simp [h]

theorem sendMessage_inflight_guard_witness :
    sendMessage (some "hello") SendOutcome.err
        { initialState none with loading := true } =
      ({ initialState none with loading := true }, ApiCall.noCall) :=
  sendMessage_inflight_guard _ _ _ rfl

/-- C1 (amended): reconstruction from stored records produces exactly one
Message per record, in the same order, preserving role, content,
kind/type, policies and extracted requirements; the explanation fields
(example, citation, policy_name, found) are not reconstructed and are
left empty. -/
theorem reconstruct_maps_each_record (records : List RawRecord)
    (_hroles : ∀ r ∈ records, r.role = "user" ∨ r.role = "assistant") :
    (reconstruct records).length = records.length ∧
    ∀ i r, records.get? i = some r →
      (reconstruct records).get? i = some
        { role := r.role
          content := r.content
          type := r.metadata.bind Metadata.type
          policies := r.metadata.bind Metadata.policies
          extracted := r.metadata.bind Metadata.extracted_requirements
          «example» := none
          citation := none
          policy_name := none
          found := none } := by
  refine ⟨by simp [reconstruct], ?_⟩
  intro i r h
  have h' : records[i]? = some r := by simpa [List.get?_eq_getElem?] using h
  simp only [reconstruct, List.get?_eq_getElem?, List.getElem?_map, h', Option.map_some']
  rfl

theorem reconstruct_maps_each_record_witness :
    (reconstruct [{ role := "user", content := "hi" }]).length = 1 ∧
    (reconstruct [{ role := "user", content := "hi" }]).get? 0 =
      some { role := "user", content := "hi" } :=
  have h := reconstruct_maps_each_record [{ role := "user", content := "hi" }]
    (by simp)
  ⟨h.1, h.2 0 _ rfl⟩

/-- C1 counterexample: a stored record whose metadata carries the
explanation fields (example "E", citation "Q", policy_name "P", found
false) is reconstructed into a Message with all explanation fields
empty — they are lost, contradicting the claim that reconstruction
preserves them. -/
theorem reconstruct_drops_explanation_cex :
    reconstruct
        [{ role := "assistant", content := "c",
           metadata := some { type := some "explanation", «example» := some "E",
                              citation := some "Q", policy_name := some "P",
                              found := some false } }] =
      [{ role := "assistant", content := "c", type := some "explanation" }] ∧
    ({ type := some "explanation", «example» := some "E", citation := some "Q",
       policy_name := some "P", found := some false } : Metadata).«example» =
      some "E" :=
  ⟨rfl, rfl⟩

/-- C3 (amended): reconstruction never raises — every record, including
one whose role is outside user/assistant, maps totally to exactly one
Message with the role string passed through unchanged, and missing
metadata maps the kind/payload fields to empty rather than raising. -/
theorem reconstruct_total_no_error (records : List RawRecord) :
    (reconstruct records).length = records.length ∧
    (∀ r ∈ records,
      (reconstructOne r).role = r.role ∧ (reconstructOne r).content = r.content) ∧
    (∀ r : RawRecord, r.metadata = none →
      (reconstructOne r).type = none ∧ (reconstructOne r).policies = none ∧
        (reconstructOne r).extracted = none) := by
  refine ⟨by simp [reconstruct], fun r _ => ⟨rfl, rfl⟩, ?_⟩
  intro r h
  simp [reconstructOne, h]

theorem reconstruct_total_no_error_witness :
    (reconstruct [{ role := "system", content := "s" }]).length = 1 ∧
    (reconstructOne { role := "system", content := "s" }).role = "system" :=
  have h := reconstruct_total_no_error [{ role := "system", content := "s" }]
  ⟨h.1, (h.2.1 _ (by simp)).1⟩

/-- C3 counterexample: on a record with role "system" the source
reconstruction does not fail — it returns a Message whose role is
"system" — whereas the spec-side reconstructSpec rejects it with an
explicit error; the failure behaviour the claim describes is absent from
the code (the TypeScript role cast is compile-time only). -/
theorem reconstruct_never_raises_cex :
    reconstruct [{ role := "system", content := "s" }] =
      [{ role := "system", content := "s" }] ∧
    reconstructSpec [{ role := "system", content := "s" }] =
      Except.error "invalid role: system" :=
  ⟨rfl, rfl⟩

/-- C4 (amended): every successful session switch and successful
new-session creation that replaces the transcript also clears the
Selection Set and discards any pending comparison result; the
creation-failure fallback resets the transcript to the default greeting
but leaves the Selection Set and the pending comparison result
untouched. -/
theorem sessionChange_clears_selection (s : UiState) (sid nid : String)
    (records : List RawRecord) :
    ((switchSession sid (GetResult.ok records) s).selected = [] ∧
     (switchSession sid (GetResult.ok records) s).compareResult = none) ∧
    ((startNewSession (CreateResult.ok nid) s).selected = [] ∧
     (startNewSession (CreateResult.ok nid) s).compareResult = none) ∧
    ((startNewSession CreateResult.err s).messages = [GREETING] ∧
     (startNewSession CreateResult.err s).selected = s.selected ∧
     (startNewSession CreateResult.err s).compareResult = s.compareResult) := by
  unfold switchSession startNewSession
  by_cases h : records.length > 0 <;> simp [h]

/-- C4 counterexample: when session creation fails, the fallback replaces
the transcript with the default greeting but neither clears the
Selection Set nor discards the pending comparison result. -/
theorem createFailure_keeps_selection_cex :
    (startNewSession CreateResult.err
        { initialState none with
            selected := [{ id := "p1", name := "P1" }]
            compareResult := some (Jv.str "r") }).messages = [GREETING] ∧
    (startNewSession CreateResult.err
        { initialState none with
            selected := [{ id := "p1", name := "P1" }]
            compareResult := some (Jv.str "r") }).selected =
      [{ id := "p1", name := "P1" }] ∧
    (startNewSession CreateResult.err
        { initialState none with
            selected := [{ id := "p1", name := "P1" }]
            compareResult := some (Jv.str "r") }).compareResult =
      some (Jv.str "r") :=
  ⟨rfl, rfl, rfl⟩

/-- C5: on startup, when the stored session id fails to resolve, the
durable slot is cleared and — when creation succeeds — refilled with the
newly created id, the active session id becomes the new id, and the
transcript still shows exactly the default greeting; if creation also
fails the slot stays cleared. -/
theorem initSession_restore_failure (s : UiState) (sid nid : String)
    (hstore : s.storedSessionId = some sid) (hmsg : s.messages = [GREETING]) :
    ((initSession GetResult.err (CreateResult.ok nid) s).storedSessionId = some nid ∧
     (initSession GetResult.err (CreateResult.ok nid) s).sessionId = some nid ∧
     (initSession GetResult.err (CreateResult.ok nid) s).messages = [GREETING]) ∧
    (initSession GetResult.err CreateResult.err s).storedSessionId = none := by
  unfold initSession
  simp [hstore, hmsg]

theorem initSession_restore_failure_witness :
    (initSession GetResult.err (CreateResult.ok "new")
        (initialState (some "old"))).storedSessionId = some "new" ∧
    (initSession GetResult.err (CreateResult.ok "new")
        (initialState (some "old"))).sessionId = some "new" ∧
    (initSession GetResult.err (CreateResult.ok "new")
        (initialState (some "old"))).messages = [GREETING] :=
  (initSession_restore_failure (initialState (some "old")) "old" "new" rfl rfl).1

/-- C2 (amended): when a successful send response carries a nonempty
uploaded_policy_ids list, that list replaces the accumulated policy-id
context — on the persistent path just as on the stateless path, since the
state s is arbitrary here; a response whose list is absent or empty
leaves the context unchanged. -/
theorem uploadedPolicyIds_replace_context (s : UiState) (t : String)
    (data : SendResponse) (hl : s.loading = false) (ht : jsTrim t ≠ "") :
    ((sendMessage (some t) (SendOutcome.ok data) s).1).sessionPolicyIds =
      match data.uploaded_policy_ids with
      | some ids => if ids.isEmpty then s.sessionPolicyIds else ids
      | none => s.sessionPolicyIds := by
  unfold sendMessage
  simp only [Option.getD_some, hl, Bool.false_eq_true, or_false, if_neg ht]
  cases data.uploaded_policy_ids with
  | some ids => by_cases h : ids.isEmpty <;> simp [h]
  | none => rfl

theorem uploadedPolicyIds_replace_context_witness :
    ((sendMessage (some "hi")
        (SendOutcome.ok { uploaded_policy_ids := some ["b"] })
        { initialState none with
            sessionId := some "sid"
            sessionPolicyIds := ["a"] }).1).sessionPolicyIds = ["b"] :=
  (uploadedPolicyIds_replace_context _ "hi" _ rfl (by decide)).trans rfl

/-- C2 counterexample: on the persistent path (an active session id is
present, as the issued call shows) with prior context ["a"], a response
carrying uploaded_policy_ids ["b"] overwrites the context to ["b"]: the
update also happens outside stateless mode, and it replaces the
accumulated ids rather than merging into them. -/
theorem persistentPath_updates_policyIds_cex :
    ((sendMessage (some "hi")
        (SendOutcome.ok { uploaded_policy_ids := some ["b"] })
        { initialState none with
            sessionId := some "sid"
            sessionPolicyIds := ["a"] }).1).sessionPolicyIds = ["b"] ∧
    (sendMessage (some "hi")
        (SendOutcome.ok { uploaded_policy_ids := some ["b"] })
        { initialState none with
            sessionId := some "sid"
            sessionPolicyIds := ["a"] }).2 = ApiCall.persistent "sid" "hi" := by
  constructor <;> rfl

/-- C6: a send performed in stateless mode (no active session id) issues
the stateless chat call carrying the entire transcript — the (role,
content) of every prior message in order, with the user's new utterance
as the last entry — together with the accumulated policy-id context. -/
theorem statelessSend_full_transcript (s : UiState) (t : String)
    (outcome : SendOutcome) (hl : s.loading = false) (ht : jsTrim t ≠ "")
    (hs : s.sessionId = none) :
    (sendMessage (some t) outcome s).2 =
      ApiCall.stateless
        ((s.messages.map fun m => (m.role, m.content)) ++ [("user", jsTrim t)])
        s.sessionPolicyIds := by
  unfold sendMessage
  simp only [Option.getD_some, hl, Bool.false_eq_true, or_false, if_neg ht, hs]
  cases outcome with
  | ok data => cases data.uploaded_policy_ids <;> simp [userMessage]
  | err => simp [userMessage]

theorem statelessSend_full_transcript_witness :
    (sendMessage (some "hi") SendOutcome.err (initialState none)).2 =
      ApiCall.stateless [("assistant", GREETING.content), ("user", "hi")] [] :=
  (statelessSend_full_transcript (initialState none) "hi" SendOutcome.err rfl
      (by decide) rfl).trans rfl

/-- C7: a send that fails with a transport error, in either mode, appends
exactly one fixed fallback assistant message (kind question, apology
string) after the user's turn, which remains in the transcript; the
accumulated policy-id context is untouched, the in-flight flag is
lowered, and the invocation issued exactly one backend call, never
retried (the model issues one call per invocation by construction). -/
theorem sendFailure_appends_fallback (s : UiState) (t : String)
    (hl : s.loading = false) (ht : jsTrim t ≠ "") :
    ((sendMessage (some t) SendOutcome.err s).1).messages =
        s.messages ++ [userMessage (jsTrim t), fallbackMessage] ∧
    ((sendMessage (some t) SendOutcome.err s).1).sessionPolicyIds =
        s.sessionPolicyIds ∧
    ((sendMessage (some t) SendOutcome.err s).1).loading = false ∧
    (sendMessage (some t) SendOutcome.err s).2 ≠ ApiCall.noCall := by
  unfold sendMessage
  simp only [Option.getD_some, hl, Bool.false_eq_true, or_false, if_neg ht]
  cases hsid : s.sessionId <;> simp

theorem sendFailure_appends_fallback_witness :
    ((sendMessage (some "hi") SendOutcome.err (initialState none)).1).messages =
      [GREETING, userMessage "hi", fallbackMessage] :=
  (sendFailure_appends_fallback (initialState none) "hi" rfl (by decide)).1.trans rfl
